import Mathlib

/-!
Verification development for the SBF GNSS driver (`src/src/sbf.cpp`).

The driver is shallowly embedded: machine integers become `Nat` with explicit
`% 2^w` where the C types truncate, the in-progress payload buffer becomes a
write log (newest write first), and the externally supplied collaborators
(transport reads/writes, the system clock, the struct layout declared in the
header `sbf.h` that is not part of `src/`) are modelled as explicit parameters.
-/

/-- Modelled from the spec: the fixed first sync value of the wire format.
The constant `SBF_SYNC1` lives in the missing header `sbf.h`; the concrete
value is irrelevant to every property proved here. -/
def SBF_SYNC1 : Nat := 36

/-- Modelled from the spec: the fixed second sync value (`SBF_SYNC2` in the
missing header `sbf.h`). -/
def SBF_SYNC2 : Nat := 64

/-- Modelled from the spec: identifier of the position/velocity/time record
(`SBF_ID_PVTGeodetic` in the missing header). Only distinctness of the four
identifiers matters below. -/
def SBF_ID_PVTGeodetic : Nat := 4007

/-- Modelled from the spec: identifier of the velocity-covariance record. -/
def SBF_ID_VelCovGeodetic : Nat := 5908

/-- Modelled from the spec: identifier of the dilution-of-precision record. -/
def SBF_ID_DOP : Nat := 4001

/-- Modelled from the spec: identifier of the satellite channel-status record. -/
def SBF_ID_ChannelStatus : Nat := 4013

/-- Modelled from the spec: the sanity floor for a freshly decoded UTC time
(`GPS_EPOCH_SECS` in the missing header). -/
def GPS_EPOCH_SECS : Nat := 1234567890

/-- The payload buffer `_buf`, modelled as a raw write log: each
`p_buf[_rx_payload_index] = b` store appends the pair `(index, byte)`,
newest first.  Reading an index returns the newest write there (0 for a
never-written byte, the model of uninitialized memory). -/
abbrev Mem := List (Nat × Nat)

/-- Read one byte of the payload buffer: newest write at that index, else 0. -/
def memRead (m : Mem) (i : Nat) : Nat :=
  match m.find? (fun p => p.1 == i) with
  | some p => p.2
  | none => 0

/-- The first `n` bytes of the payload buffer, as `crc16` traverses them. -/
def memBytes (m : Mem) (n : Nat) : List Nat :=
  (List.range n).map (memRead m)

/-- The loop of `crc16` (sbf.cpp:359-372): `x = crc >> 8 ^ *data_p++;
x ^= x >> 4; crc = (crc << 8) ^ ((uint16_t)(x << 12)) ^ ((uint16_t)(x << 5))
^ ((uint16_t)x);` with `x` a `uint8_t` and `crc` a `uint16_t`. -/
def crc16Loop : List Nat → Nat → Nat
  | [], crc => crc
  | b :: rest, crc =>
    let x := ((crc >>> 8) ^^^ b) % 256
    let x := x ^^^ (x >>> 4)
    crc16Loop rest (((crc <<< 8) ^^^ ((x <<< 12) % 65536) ^^^ ((x <<< 5) % 65536) ^^^ x) % 65536)

/-- `crc16(data_p, length)` from sbf.cpp:359-372 over the byte list. -/
def crc16 (data : List Nat) : Nat := crc16Loop data 0

/-- One step of the checksum recurrence as the specification words it
(spec §4.1): XOR the high byte of the current checksum with the input byte,
apply a 4-bit self-XOR fold, then recombine via
`(checksum << 8) XOR (fold << 12) XOR (fold << 5) XOR fold` in 16-bit
arithmetic.  Stated separately from `crc16` so the code can be compared
against the spec's recurrence. -/
def crc16SpecStep (crc b : Nat) : Nat :=
  let fold := ((crc >>> 8) ^^^ b) % 256
  let fold := fold ^^^ (fold >>> 4)
  ((crc <<< 8) ^^^ ((fold <<< 12) % 65536) ^^^ ((fold <<< 5) % 65536) ^^^ fold) % 65536

/-- Decoder states (`SBF_DECODE_*` of the decode state machine). -/
inductive SBFDecodeState where
  | SYNC1 | SYNC2 | CRC1 | CRC2 | MSG1 | MSG2 | LENGTH1 | LENGTH2 | PAYLOAD
  deriving DecidableEq, Repr

/-- The externally owned position record (`vehicle_gps_position_s`), trimmed
to the fields sbf.cpp writes.  Floating-point outputs are represented by the
raw integer field values they are computed from (the claims under proof do
not depend on float arithmetic); `vel_m_sq` stands for the squared ground
speed `vel_n^2 + vel_e^2` whose square root the code stores. -/
structure GpsPosition where
  fix_type : Nat
  vel_ned_valid : Bool
  satellites_used : Nat
  lat : Int
  lon : Int
  alt_ellipsoid : Int
  alt : Int
  eph : Int
  epv : Int
  vel_n : Int
  vel_e : Int
  vel_d : Int
  vel_m_sq : Int
  cog : Int
  c_variance : Int
  s_variance : Int
  hdop : Int
  vdop : Int
  time_utc_usec : Nat
  timestamp : Nat
  timestamp_time_relative : Int
  deriving DecidableEq, Repr

/-- The externally owned satellite record (`satellite_info_s`): arrays of
capacity `cap` (the model of `SAT_INFO_MAX_SATELLITES`, whose numeric value
lives outside `src/`). -/
structure SatelliteInfo where
  timestamp : Nat
  count : Nat
  svid : List Nat
  used : List Nat
  elevation : List Int
  azimuth : List Nat
  snr : List Nat
  cap : Nat
  deriving DecidableEq, Repr

/-- The driver instance state: the decode-machine fields reset by
`decodeInit`, the payload buffer write log, the reporting-cycle state
(`_msg_status`, `_got_pos`, `_got_dop`), `_configured`, the rate counters and
the two output records. -/
structure SbfDriver where
  decode_state : SBFDecodeState
  crc : Nat
  rx_payload_length : Nat
  rx_payload_index : Nat
  buf : Mem
  msg_status : Nat
  got_pos : Bool
  got_dop : Bool
  configured : Bool
  last_timestamp_time : Nat
  rate_count_vel : Nat
  rate_count_lat_lon : Nat
  gps : GpsPosition
  sat : SatelliteInfo
  deriving DecidableEq, Repr

/-- Modelled from the spec: field accessors over the raw payload buffer.
The concrete struct layout (`sbf_buf_t` and the per-message payload structs)
is declared in the missing header `sbf.h`; each accessor stands for one
little-endian field extraction the dispatcher performs.  All properties below
hold for every layout, so nothing depends on concrete offsets. -/
structure SbfLayout where
  msg_id : Mem → Nat
  buf_WNc : Mem → Nat
  buf_TOW : Mem → Nat
  pvt_mode_type : Mem → Nat
  pvt_error : Mem → Nat
  pvt_nr_sv : Mem → Nat
  pvt_latitude : Mem → Int
  pvt_longitude : Mem → Int
  pvt_height : Mem → Int
  pvt_undulation : Mem → Int
  pvt_h_accuracy : Mem → Int
  pvt_v_accuracy : Mem → Int
  pvt_vn : Mem → Int
  pvt_ve : Mem → Int
  pvt_vu : Mem → Int
  pvt_cog : Mem → Int
  vel_cov_max : Mem → Int
  dop_hDOP : Mem → Int
  dop_vDOP : Mem → Int
  chan_n : Mem → Nat
  chan_sb1_length : Mem → Nat
  chan_sb2_length : Mem → Nat
  chan_satinfo_offset : Nat
  sat_svid : Mem → Nat → Nat
  sat_health_status : Mem → Nat → Nat
  sat_elevation : Mem → Nat → Int
  sat_azimuth : Mem → Nat → Nat
  sat_n2 : Mem → Nat → Nat

/-- `decodeInit()` (sbf.cpp:514-521): reset the decode-machine fields.
The payload buffer itself is not cleared. -/
def decodeInit (s : SbfDriver) : SbfDriver :=
  { s with decode_state := .SYNC1, crc := 0, rx_payload_length := 0, rx_payload_index := 0 }

/-- `payloadRxAdd(b)` (sbf.cpp:341-354): store `b` at `_rx_payload_index`,
increment the 16-bit index, and report 1 when the index has reached
`_rx_payload_length`.  Note there is no capacity check of any kind and the
`-1` error value the caller tests for is never produced. -/
def payloadRxAdd (s : SbfDriver) (b : Nat) : SbfDriver × Int :=
  let s := { s with buf := (s.rx_payload_index, b) :: s.buf }
  let s := { s with rx_payload_index := (s.rx_payload_index + 1) % 65536 }
  if s.rx_payload_length ≤ s.rx_payload_index then (s, 1) else (s, 0)

/-- The fix-quality chain of the PVTGeodetic branch (sbf.cpp:392-406). -/
def fixTypeOf (m : Nat) : Nat :=
  if m < 1 then 1
  else if m = 6 then 4
  else if m = 5 ∨ m = 8 then 5
  else if m = 4 ∨ m = 7 then 6
  else 3

/-- The tier mapping exactly as the specification words it (spec §4.3):
mode < 1 gives tier 1 (no fix), mode 6 gives tier 4, modes 5 and 8 give
tier 5, modes 4 and 7 give tier 6, every other mode gives tier 3. -/
def specFixTier (m : Nat) : Nat :=
  if m < 1 then 1
  else if m = 6 then 4
  else if m = 5 ∨ m = 8 then 5
  else if m = 4 ∨ m = 7 then 6
  else 3

/-- The epilogue of `payloadRxDone` (sbf.cpp:507-509): when a message was
handled, record the relative timestamp. -/
def rxDoneFinish (s : SbfDriver) (ret : Int) : SbfDriver × Int :=
  if 0 < ret then
    ({ s with gps := { s.gps with
        timestamp_time_relative := (s.last_timestamp_time : Int) - (s.gps.timestamp : Int) } }, ret)
  else (s, ret)

/-- The `SBF_ID_PVTGeodetic` branch of `payloadRxDone` (sbf.cpp:388-466).
`mktime` over 1980-01-06 plus `WNc` weeks plus `TOW/1000` seconds is modelled
arithmetically (no leap-second correction, as the spec states):
`315964800 + WNc*604800 + TOW/1000`. -/
def pvtUpdate (L : SbfLayout) (now : Nat) (s : SbfDriver) : SbfDriver × Int :=
  let m := L.pvt_mode_type s.buf
  let g1 := { s.gps with
    fix_type := fixTypeOf m,
    vel_ned_valid := decide (1 < fixTypeOf m ∧ L.pvt_error s.buf = 0),
    satellites_used := L.pvt_nr_sv s.buf,
    lat := L.pvt_latitude s.buf,
    lon := L.pvt_longitude s.buf,
    alt_ellipsoid := L.pvt_height s.buf,
    alt := L.pvt_height s.buf - L.pvt_undulation s.buf,
    eph := L.pvt_h_accuracy s.buf,
    epv := L.pvt_v_accuracy s.buf,
    vel_n := L.pvt_vn s.buf,
    vel_e := L.pvt_ve s.buf,
    vel_d := - L.pvt_vu s.buf,
    vel_m_sq := L.pvt_vn s.buf * L.pvt_vn s.buf + L.pvt_ve s.buf * L.pvt_ve s.buf,
    cog := L.pvt_cog s.buf,
    c_variance := 1,
    time_utc_usec := 0 }
  let epoch := 315964800 + L.buf_WNc s.buf * 604800 + L.buf_TOW s.buf / 1000
  let g2 :=
    if GPS_EPOCH_SECS < epoch then
      { g1 with time_utc_usec := epoch * 1000000 + (L.buf_TOW s.buf % 1000) * 1000 }
    else g1
  let g3 := { g2 with timestamp := now }
  let s2 := { s with
    gps := g3,
    msg_status := s.msg_status ||| 1,
    last_timestamp_time := now,
    rate_count_vel := s.rate_count_vel + 1,
    rate_count_lat_lon := s.rate_count_lat_lon + 1,
    got_pos := true }
  rxDoneFinish s2 (if s2.msg_status = 7 then 1 else 0)

/-- The `SBF_ID_VelCovGeodetic` branch (sbf.cpp:468-473): `s_variance` gets
the maximum covariance component (float arithmetic abstracted into the
`vel_cov_max` accessor). -/
def velCovUpdate (L : SbfLayout) (s : SbfDriver) : SbfDriver × Int :=
  rxDoneFinish
    { s with
      msg_status := s.msg_status ||| 2,
      gps := { s.gps with s_variance := L.vel_cov_max s.buf } } 0

/-- The `SBF_ID_DOP` branch (sbf.cpp:475-481). -/
def dopUpdate (L : SbfLayout) (s : SbfDriver) : SbfDriver × Int :=
  rxDoneFinish
    { s with
      msg_status := s.msg_status ||| 4,
      gps := { s.gps with hdop := L.dop_hDOP s.buf, vdop := L.dop_vDOP s.buf },
      got_dop := true } 0

/-- One iteration body of the ChannelStatus loop (sbf.cpp:489-497): extract
the first sub-block's fields of the satellite at cursor `ptr` into slot `i`. -/
def satWrite (L : SbfLayout) (m : Mem) (i ptr : Nat) (sat : SatelliteInfo) : SatelliteInfo :=
  { sat with
    svid := sat.svid.set i (L.sat_svid m ptr),
    used := sat.used.set i (if L.sat_health_status m ptr = 1 then 1 else 0),
    elevation := sat.elevation.set i (L.sat_elevation m ptr),
    azimuth := sat.azimuth.set i (L.sat_azimuth m ptr &&& 511),
    snr := sat.snr.set i 0 }

/-- The ChannelStatus loop (sbf.cpp:489-497): `fuel` iterations (the caller
passes `min count cap`), advancing the cursor by
`sb1_length + n2 * sb2_length` after each satellite. -/
def chanLoop (L : SbfLayout) (m : Mem) : Nat → Nat → Nat → SatelliteInfo → SatelliteInfo
  | 0, _, _, sat => sat
  | fuel + 1, i, ptr, sat =>
    chanLoop L m fuel (i + 1)
      (ptr + L.chan_sb1_length m + L.sat_n2 m ptr * L.chan_sb2_length m)
      (satWrite L m i ptr sat)

/-- The `SBF_ID_ChannelStatus` branch (sbf.cpp:483-501): stamp the time,
store the reported count `n` (a `uint8_t` store, hence `% 256`) unclamped,
then iterate `min count cap` sub-records from the start of the satinfo
region. -/
def chanUpdate (L : SbfLayout) (now : Nat) (s : SbfDriver) : SbfDriver × Int :=
  let si := { s.sat with timestamp := now, count := L.chan_n s.buf % 256 }
  let si2 := chanLoop L s.buf (min si.count si.cap) 0 L.chan_satinfo_offset si
  rxDoneFinish { s with sat := si2 } 2

/-- The cursor positions the specification describes for the satellite
sub-records (spec §4.3): start at the satinfo region, and advance past each
satellite's full variable-length record, first sub-block size plus
secondary-block count times secondary-block size, before reading the next. -/
def specSatPtr (L : SbfLayout) (m : Mem) : Nat → Nat
  | 0 => L.chan_satinfo_offset
  | i + 1 =>
    specSatPtr L m i + L.chan_sb1_length m
      + L.sat_n2 m (specSatPtr L m i) * L.chan_sb2_length m

/-- `payloadRxDone()` (sbf.cpp:377-512): verify the stored checksum against
`crc16` over the first `_rx_payload_length` buffer bytes — on mismatch return
1 with no other effect — then dispatch on the message identifier. -/
def payloadRxDone (L : SbfLayout) (now : Nat) (s : SbfDriver) : SbfDriver × Int :=
  if s.crc ≠ crc16 (memBytes s.buf s.rx_payload_length) then (s, 1)
  else if L.msg_id s.buf = SBF_ID_PVTGeodetic then pvtUpdate L now s
  else if L.msg_id s.buf = SBF_ID_VelCovGeodetic then velCovUpdate L s
  else if L.msg_id s.buf = SBF_ID_DOP then dopUpdate L s
  else if L.msg_id s.buf = SBF_ID_ChannelStatus then chanUpdate L now s
  else rxDoneFinish s 0

/-- `parseChar(b)` (sbf.cpp:238-336), one byte of the frame decoder.  The
byte parameter is truncated to `uint8_t`.  In `SBF_DECODE_LENGTH2` the code
assembles the declared length, adds 4 (16-bit arithmetic) and resets the fill
index; in `SBF_DECODE_PAYLOAD` the final `ret = 0;` (sbf.cpp:328) makes the
function return 0 whatever `payloadRxDone` reported. -/
def parseChar (L : SbfLayout) (now : Nat) (s : SbfDriver) (b0 : Nat) : SbfDriver × Int :=
  let b := b0 % 256
  match s.decode_state with
  | .SYNC1 => (if b = SBF_SYNC1 then { s with decode_state := .SYNC2 } else s, 0)
  | .SYNC2 => (if b = SBF_SYNC2 then { s with decode_state := .CRC1 } else decodeInit s, 0)
  | .CRC1 => ({ s with crc := b, decode_state := .CRC2 }, 0)
  | .CRC2 => ({ s with crc := s.crc ||| (b <<< 8), decode_state := .MSG1 }, 0)
  | .MSG1 =>
    let (s2, r) := payloadRxAdd s b
    ({ s2 with decode_state := .MSG2 }, r)
  | .MSG2 =>
    let (s2, r) := payloadRxAdd s b
    ({ s2 with decode_state := .LENGTH1 }, r)
  | .LENGTH1 =>
    let (s2, r) := payloadRxAdd s b
    ({ s2 with rx_payload_length := b, decode_state := .LENGTH2 }, r)
  | .LENGTH2 =>
    let (s2, r) := payloadRxAdd s b
    ({ s2 with
        rx_payload_length := ((s2.rx_payload_length ||| (b <<< 8)) + 4) % 65536,
        rx_payload_index := 0,
        decode_state := .PAYLOAD }, r)
  | .PAYLOAD =>
    let (s2, r) := payloadRxAdd s b
    if r < 0 then (decodeInit s2, 0)
    else if 0 < r then (decodeInit (payloadRxDone L now s2).1, 0)
    else (s2, 0)

/-- Feed a byte list through `parseChar`, keeping only the state. -/
def feedList (L : SbfLayout) (now : Nat) (s : SbfDriver) : List Nat → SbfDriver
  | [] => s
  | b :: bs => feedList L now (parseChar L now s b).1 bs

/-- `handled |= parseChar(buf[i])` (sbf.cpp:225): bitwise or of the
nonnegative return codes. -/
def intOr (a b : Int) : Int := ((a.toNat ||| b.toNat : Nat) : Int)

/-- The inner byte loop of `receive` (sbf.cpp:224-227). -/
def parseAll (L : SbfLayout) (now : Nat) : SbfDriver → Int → List Nat → SbfDriver × Int
  | s, handled, [] => (s, handled)
  | s, handled, b :: bs =>
    let p := parseChar L now s b
    parseAll L now p.1 (intOr handled p.2) bs

/-- One transport read observed by `receive`: the return value of
`read(buf, sizeof(buf), ...)`, the bytes it produced, and the value
`gps_absolute_time()` yields in that iteration's timeout check. -/
structure ReadEvent where
  ret : Int
  bytes : List Nat
  now : Nat
  deriving Repr

/-- The loop of `receive(timeout)` (sbf.cpp:191-236) over a list of read
events: readiness is `(got_pos && got_dop)` once configured, else a nonzero
`handled`; a negative read returns -1; a zero-length read returns `handled`
and clears both flags when ready; otherwise the bytes are parsed; finally the
overall timeout check may return -1.  `none` means the event list ran out
with the loop still running. -/
def receiveLoop (L : SbfLayout) (time_started timeout : Nat) :
    SbfDriver → Int → List ReadEvent → Option (Int × SbfDriver)
  | _, _, [] => none
  | s, handled, e :: es =>
    let ready : Bool := if s.configured then s.got_pos && s.got_dop else handled != 0
    if e.ret < 0 then some (-1, s)
    else if e.ret = 0 then
      if ready then some (handled, { s with got_pos := false, got_dop := false })
      else if time_started + timeout * 1000 < e.now then some (-1, s)
      else receiveLoop L time_started timeout s handled es
    else
      let p := parseAll L e.now s handled e.bytes
      if time_started + timeout * 1000 < e.now then some (-1, p.1)
      else receiveLoop L time_started timeout p.1 p.2 es

/-- `receive(timeout)` entered with `handled = 0`. -/
def receive (L : SbfLayout) (time_started timeout : Nat) (s : SbfDriver)
    (events : List ReadEvent) : Option (Int × SbfDriver) :=
  receiveLoop L time_started timeout s 0 events

/-- `strlen` over a byte list modelling a C string (stops at the first NUL;
the end of the list also acts as the terminator). -/
def cstrlen (l : List Nat) : Nat := (l.takeWhile (fun b => b != 0)).length

/-- `strncmp(a, b, n) == 0` over byte lists, with the end of a list acting as
the NUL terminator. -/
def strncmpIsZero (a b : List Nat) : Nat → Bool
  | 0 => true
  | n + 1 =>
    let x := a.headD 0
    let y := b.headD 0
    if x ≠ y then false
    else if x = 0 then true
    else strncmpIsZero a.tail b.tail n

/-- `strcmp(a, b) == 0` over byte lists, with the end of a list acting as the
NUL terminator. -/
def strcmpIsZero : List Nat → List Nat → Bool
  | [], b => b.headD 0 == 0
  | x :: as, b =>
    if x ≠ b.headD 0 then false
    else if x = 0 then true
    else strcmpIsZero as b.tail

/-- The fixed 4-byte acknowledgment marker `"$R: "`. -/
def ackMarker : List Nat := [36, 82, 58, 32]

/-- `sendMessageAndWaitForAck` (sbf.cpp:162-189) with the transport outcomes
as parameters: `writeRet` is what `write(msg, length)` returned, `readRet`
and `buf` are what `read` returned and produced.  Succeeds only when the
whole command was written, the read did not fail, the reply is long enough,
starts with `"$R: "` and echoes the command exactly. -/
def sendMessageAndWaitForAck (msg : List Nat) (writeRet readRet : Int) (buf : List Nat) : Bool :=
  if writeRet ≠ (cstrlen msg : Int) then false
  else if readRet < 0 then false
  else if readRet < (cstrlen msg : Int) + 4
      ∨ strncmpIsZero buf ackMarker 4 = false
      ∨ strcmpIsZero (buf.drop 4) msg = false then false
  else true

/-- The candidate baud rates of `configure` (sbf.cpp:85). -/
def sbfBaudrates : List Nat := [9600, 38400, 19200, 57600, 115200, 230400]

/-- The acknowledgment outcomes of the external receiver, indexed by
candidate: whether the set-baudrate command, the set-dynamics command and
each line of the static batch get acknowledged on candidate `i`. -/
structure AckEnv where
  baudAck : Nat → Bool
  dynAck : Nat → Bool
  lineAck : Nat → Nat → Bool

/-- How many batch lines the inner while loop of `configure`
(sbf.cpp:133-148) sends, starting at line `j` with `n` lines left: it stops
right after the first unacknowledged line. -/
def linesSentFrom (la : Nat → Bool) : Nat → Nat → Nat
  | _, 0 => 0
  | j, n + 1 => if la j then 1 + linesSentFrom la (j + 1) n else 1

/-- The observable outcome of `configure`: its return value, the final value
of the by-reference `baudrate` parameter, the `_configured` flag, and how
many batch lines were sent on the candidate that ended the loop. -/
structure ConfigureResult where
  ret : Int
  baudrate : Nat
  configured : Bool
  batchLinesSent : Nat
  deriving DecidableEq, Repr

/-- The candidate loop of `configure` (sbf.cpp:87-151): each iteration first
assigns the candidate to `baudrate`; an unacknowledged set-baudrate or
set-dynamics command advances to the next candidate (after the former
succeeds, `baudrate` is overridden with the receiver's fixed internal baud
when it differs); once dynamics is acknowledged the batch runs, stopping at
its first unacknowledged line, and the loop then exits unconditionally
(the `break` at sbf.cpp:150), whatever the batch outcome. -/
def configureFrom (env : AckEnv) (nCfg fixedBaud : Nat) : Nat → Nat → List Nat → ConfigureResult
  | _, baud, [] => ⟨-1, baud, false, 0⟩
  | i, _, r :: rest =>
    if env.baudAck i = false then configureFrom env nCfg fixedBaud (i + 1) r rest
    else
      let baud2 := if fixedBaud ≠ r then fixedBaud else r
      if env.dynAck i = false then configureFrom env nCfg fixedBaud (i + 1) baud2 rest
      else ⟨0, baud2, true, linesSentFrom (env.lineAck i) 0 nCfg⟩

/-- `configure(baudrate, mode)` (sbf.cpp:77-160): run the candidate loop over
the fixed rate list; exhaustion returns -1, otherwise the receiver is marked
configured and 0 is returned.  `nCfg` is the number of lines of the static
batch `SBF_CONFIG` (its text lives in the missing header), `fixedBaud` is
`SBF_TX_CFG_PRT_BAUDRATE`, `baud0` the incoming value of the by-reference
parameter. -/
def configure (env : AckEnv) (nCfg fixedBaud baud0 : Nat) : ConfigureResult :=
  configureFrom env nCfg fixedBaud 0 baud0 sbfBaudrates

/-- A zeroed position record. -/
def gpsPos0 : GpsPosition :=
  { fix_type := 0, vel_ned_valid := false, satellites_used := 0, lat := 0, lon := 0,
    alt_ellipsoid := 0, alt := 0, eph := 0, epv := 0, vel_n := 0, vel_e := 0, vel_d := 0,
    vel_m_sq := 0, cog := 0, c_variance := 0, s_variance := 0, hdop := 0, vdop := 0,
    time_utc_usec := 0, timestamp := 0, timestamp_time_relative := 0 }

/-- A satellite record of capacity `cap` with all slots holding `v`. -/
def satInfoOf (v cap : Nat) : SatelliteInfo :=
  { timestamp := 0, count := 0, svid := List.replicate cap v, used := List.replicate cap v,
    elevation := List.replicate cap (Int.ofNat v), azimuth := List.replicate cap v,
    snr := List.replicate cap v, cap := cap }

/-- The freshly constructed driver (constructor runs `decodeInit`). -/
def initDriver : SbfDriver :=
  { decode_state := .SYNC1, crc := 0, rx_payload_length := 0, rx_payload_index := 0,
    buf := [], msg_status := 0, got_pos := false, got_dop := false, configured := false,
    last_timestamp_time := 0, rate_count_vel := 0, rate_count_lat_lon := 0,
    gps := gpsPos0, sat := satInfoOf 0 20 }

/-- The driver after configuration succeeded. -/
def cfgDriver : SbfDriver := { initDriver with configured := true }

/-- A trivial all-zero layout (used where the layout is irrelevant). -/
def L0 : SbfLayout :=
  { msg_id := fun _ => 0, buf_WNc := fun _ => 0, buf_TOW := fun _ => 0,
    pvt_mode_type := fun _ => 0, pvt_error := fun _ => 0, pvt_nr_sv := fun _ => 0,
    pvt_latitude := fun _ => 0, pvt_longitude := fun _ => 0, pvt_height := fun _ => 0,
    pvt_undulation := fun _ => 0, pvt_h_accuracy := fun _ => 0, pvt_v_accuracy := fun _ => 0,
    pvt_vn := fun _ => 0, pvt_ve := fun _ => 0, pvt_vu := fun _ => 0, pvt_cog := fun _ => 0,
    vel_cov_max := fun _ => 0, dop_hDOP := fun _ => 0, dop_vDOP := fun _ => 0,
    chan_n := fun _ => 0, chan_sb1_length := fun _ => 0, chan_sb2_length := fun _ => 0,
    chan_satinfo_offset := 0, sat_svid := fun _ _ => 0, sat_health_status := fun _ _ => 0,
    sat_elevation := fun _ _ => 0, sat_azimuth := fun _ _ => 0, sat_n2 := fun _ _ => 0 }

/-- A concrete layout reading the message identifier little-endian from the
first two buffer bytes and the PVT mode field from byte 2 (used for witness
runs over concrete frames). -/
def Lwire : SbfLayout :=
  { L0 with
    msg_id := fun m => memRead m 0 ||| (memRead m 1 <<< 8),
    pvt_mode_type := fun m => memRead m 2 }

/-- A complete wire frame whose dispatch reaches the PVTGeodetic branch
under `Lwire`: sync pair, stored checksum `crc16 [167,15,0,0] = 38762`
little-endian, placeholder identifier/length header bytes, declared body
length 0, and the four payload-phase bytes `167 15 0 0` (the fill-index
reset of `SBF_DECODE_LENGTH2` makes these the bytes the dispatcher reads;
`167 ||| 15<<8 = 4007`). -/
def pvtFrame : List Nat := [36, 64, 106, 151, 0, 0, 0, 0, 167, 15, 0, 0]

/-- A complete wire frame reaching the DOP branch under `Lwire`
(`161 ||| 15<<8 = 4001`, stored checksum `crc16 [161,15,0,0] = 45299`). -/
def dopFrame : List Nat := [36, 64, 243, 176, 0, 0, 0, 0, 161, 15, 0, 0]

/-- A complete wire frame reaching the ChannelStatus branch under `Lwire`
(`173 ||| 15<<8 = 4013`, stored checksum `crc16 [173,15,0,0] = 65473`). -/
def chanFrame : List Nat := [36, 64, 193, 255, 0, 0, 0, 0, 173, 15, 0, 0]

/-- `chanFrame` without its final byte. -/
def chanFrameInit : List Nat := [36, 64, 193, 255, 0, 0, 0, 0, 173, 15, 0]

/-- The adversarial frame header for the overflow run: sync pair, stored
checksum 0, identifier bytes 0, declared body length `251 ||| 255<<8 = 65531`,
so the adjusted length becomes `65531 + 4 = 65535`. -/
def advHdr : List Nat := [36, 64, 0, 0, 0, 0, 251, 255]

/-- The decoder state after the adversarial header: mid-frame, expecting an
adjusted payload length of 65535 with the fill index reset to 0 (the header
bytes were logged at indices 0-3). -/
def advState : SbfDriver :=
  { initDriver with
    decode_state := .PAYLOAD,
    rx_payload_length := 65535,
    rx_payload_index := 0,
    buf := [(3, 255), (2, 251), (1, 0), (0, 0)] }

/-- First-call read event for the reporting-cycle run: a PVT frame arrives,
then the clock is far past the deadline, so the call times out. -/
def evA : ReadEvent := ⟨12, pvtFrame, 1000000⟩

/-- Second-call read events: a DOP frame arrives well before the deadline,
then a zero-length read. -/
def evB : ReadEvent := ⟨12, dopFrame, 10⟩

/-- The zero-length read ending the second call. -/
def evC : ReadEvent := ⟨0, [], 20⟩

/-- The driver state the first (timed-out) call leaves behind. -/
def afterTimeoutState : SbfDriver :=
  ((receive Lwire 0 50 cfgDriver [evA]).getD (0, cfgDriver)).2

/-- The driver state the second call returns. -/
def secondCallState : SbfDriver :=
  ((receive Lwire 0 50 afterTimeoutState [evB, evC]).getD (0, cfgDriver)).2

/-- A layout whose buffer decodes as a PVTGeodetic record with mode 6. -/
def Lpvt6 : SbfLayout :=
  { L0 with msg_id := fun _ => SBF_ID_PVTGeodetic, pvt_mode_type := fun _ => 6 }

/-- A layout whose buffer decodes as a ChannelStatus record with 2 reported
satellites, first sub-block size 3, secondary sub-block size 2, one
secondary block per satellite, satinfo region starting at offset 8, and the
satellite id accessor returning the cursor position itself (so the proved
cursor positions are observable in the output). -/
def LchanW : SbfLayout :=
  { L0 with
    msg_id := fun _ => SBF_ID_ChannelStatus,
    chan_n := fun _ => 2,
    chan_sb1_length := fun _ => 3,
    chan_sb2_length := fun _ => 2,
    chan_satinfo_offset := 8,
    sat_n2 := fun _ _ => 1,
    sat_svid := fun _ p => p }

/-- A layout whose buffer decodes as a ChannelStatus record reporting 2
satellites (used against a capacity-1 output record). -/
def LchanCex : SbfLayout :=
  { L0 with msg_id := fun _ => SBF_ID_ChannelStatus, chan_n := fun _ => 2 }

/-- A driver whose satellite record has capacity 5, slots prefilled with 9. -/
def chanWDriver : SbfDriver := { initDriver with sat := satInfoOf 9 5 }

/-- A driver whose satellite record has capacity 1. -/
def chanCexDriver : SbfDriver := { initDriver with sat := satInfoOf 9 1 }

/-- A driver state holding a stored checksum (1) that differs from the
computed checksum over its declared region (0 over the empty region). -/
def badCrcDriver : SbfDriver := { initDriver with crc := 1 }

/-- Handshake outcomes where candidate 0 acknowledges the baudrate and
dynamics commands but no batch line is ever acknowledged, and every other
candidate fails. -/
def envBatchFail : AckEnv :=
  { baudAck := fun i => i == 0, dynAck := fun i => i == 0, lineAck := fun _ _ => false }

/-- Handshake outcomes where only the last candidate (230400) acknowledges
its baudrate command, and dynamics is never acknowledged. -/
def envLastBaudOnly : AckEnv :=
  { baudAck := fun i => i == 5, dynAck := fun _ => false, lineAck := fun _ _ => true }

/-- Handshake outcomes where everything is acknowledged immediately. -/
def envAllAck : AckEnv :=
  { baudAck := fun _ => true, dynAck := fun _ => true, lineAck := fun _ _ => true }

theorem crc16Loop_append_single (l : List Nat) (b c : Nat) :
    crc16Loop (l ++ [b]) c = crc16SpecStep (crc16Loop l c) b := by
  induction l generalizing c with
  | nil => rfl
  | cons a as ih => simpa only [List.cons_append, crc16Loop] using ih _

/-- Claim C7: the checksum verifier is the pure left fold of the spec's
bit-mixing recurrence starting from 0 — appending a byte to any input
applies exactly one `crc16SpecStep` — and its output on the fixed golden
input `[36, 64, 77, 10, 3, 9]` is 30304. -/
theorem crc16_matches_spec_recurrence :
    (∀ l b, crc16 (l ++ [b]) = crc16SpecStep (crc16 l) b) ∧
    crc16 [] = 0 ∧ crc16 [36, 64, 77, 10, 3, 9] = 30304 :=
  ⟨fun l b => crc16Loop_append_single l b 0, rfl, by decide⟩

/-- Claim C6: on a checksum mismatch `payloadRxDone` is a strict no-op on
the driver state — no output record, cycle flag or mask bit changes — but it
returns 1, the "message handled" code, contradicting its own return-code
contract (sbf.cpp:377) and the spec, which require 0. -/
theorem payloadRxDone_crc_mismatch_noop_returns_one (L : SbfLayout) (now : Nat)
    (s : SbfDriver) (h : s.crc ≠ crc16 (memBytes s.buf s.rx_payload_length)) :
    payloadRxDone L now s = (s, 1) := by
  simp [payloadRxDone, h]

/-- Witness: a concrete frame whose stored checksum 1 differs from the
computed checksum 0 is discarded without any mutation, yet reported as 1. -/
theorem payloadRxDone_crc_mismatch_witness :
    payloadRxDone L0 0 badCrcDriver = (badCrcDriver, 1) :=
  payloadRxDone_crc_mismatch_noop_returns_one L0 0 badCrcDriver (by decide)

theorem rxDoneFinish_gps_fix_type (s : SbfDriver) (r : Int) :
    (rxDoneFinish s r).1.gps.fix_type = s.gps.fix_type := by
  unfold rxDoneFinish; split <;> rfl

theorem rxDoneFinish_sat (s : SbfDriver) (r : Int) :
    (rxDoneFinish s r).1.sat = s.sat := by
  unfold rxDoneFinish; split <;> rfl

theorem rxDoneFinish_buf (s : SbfDriver) (r : Int) :
    (rxDoneFinish s r).1.buf = s.buf := by
  unfold rxDoneFinish; split <;> rfl

theorem pvtUpdate_fix_type (L : SbfLayout) (now : Nat) (s : SbfDriver) :
    (pvtUpdate L now s).1.gps.fix_type = fixTypeOf (L.pvt_mode_type s.buf) := by
  unfold pvtUpdate
  rw [rxDoneFinish_gps_fix_type]
  split <;> rfl

/-- Claim C8: for every dispatched position/velocity/time record (checksum
valid, identifier `SBF_ID_PVTGeodetic`), the fix-quality tier written to the
output equals the spec's exact mapping of the mode field: mode < 1 gives 1,
mode 6 gives 4, modes 5 and 8 give 5, modes 4 and 7 give 6, all else 3. -/
theorem pvt_fix_type_tier_mapping (L : SbfLayout) (now : Nat) (s : SbfDriver)
    (hcrc : s.crc = crc16 (memBytes s.buf s.rx_payload_length))
    (hid : L.msg_id s.buf = SBF_ID_PVTGeodetic) :
    (payloadRxDone L now s).1.gps.fix_type = specFixTier (L.pvt_mode_type s.buf) := by
  unfold payloadRxDone
  rw [if_neg (by simp [hcrc]), if_pos hid, pvtUpdate_fix_type]
  rfl

/-- Witness: a concrete valid frame with mode 6 yields fix tier 4. -/
theorem pvt_fix_type_tier_mapping_witness :
    (payloadRxDone Lpvt6 0 initDriver).1.gps.fix_type =
      specFixTier (Lpvt6.pvt_mode_type initDriver.buf) :=
  pvt_fix_type_tier_mapping Lpvt6 0 initDriver (by decide) (by decide)

/-- Claim C2: the per-byte return contract is violated by the code.  On the
concrete run, the fifth byte of a frame (the first identifier byte, decoded
mid-frame) makes `parseChar` return 1, because `payloadRxAdd` compares the
incremented index against the still-zero `_rx_payload_length`; and the byte
that completes a valid ChannelStatus frame returns 0 — although the dispatch
ran (the satellite record gets stamped with the current time and the
dispatcher reported 2) — because of the unconditional `ret = 0;` at
sbf.cpp:328.  The claim (and the function's own comment, sbf.cpp:238) say 0
while decoding and the dispatch code 1 or 2 on the completing byte. -/
theorem parseChar_return_contract_bug :
    (parseChar Lwire 0 (feedList Lwire 0 initDriver [36, 64, 0, 0]) 0).2 = 1 ∧
    (parseChar Lwire 9 (feedList Lwire 9 initDriver chanFrameInit) 0).2 = 0 ∧
    (parseChar Lwire 9 (feedList Lwire 9 initDriver chanFrameInit) 0).1.sat.timestamp = 9 := by
  decide

theorem chanLoop_fields (L : SbfLayout) (m : Mem) :
    ∀ fuel i ptr sat, (chanLoop L m fuel i ptr sat).count = sat.count ∧
      (chanLoop L m fuel i ptr sat).cap = sat.cap ∧
      (chanLoop L m fuel i ptr sat).svid.length = sat.svid.length ∧
      (chanLoop L m fuel i ptr sat).timestamp = sat.timestamp := by
  intro fuel
  induction fuel with
  | zero => exact fun i ptr sat => ⟨rfl, rfl, rfl, rfl⟩
  | succ f ih =>
    intro i ptr sat
    have h := ih (i + 1) (ptr + L.chan_sb1_length m + L.sat_n2 m ptr * L.chan_sb2_length m)
      (satWrite L m i ptr sat)
    simpa only [chanLoop, satWrite, List.length_set] using h

theorem chanLoop_untouched (L : SbfLayout) (m : Mem) :
    ∀ fuel i ptr sat j, (j < i ∨ i + fuel ≤ j) →
      (chanLoop L m fuel i ptr sat).svid[j]? = sat.svid[j]? := by
  intro fuel
  induction fuel with
  | zero => exact fun i ptr sat j _ => rfl
  | succ f ih =>
    intro i ptr sat j hj
    have hij : i ≠ j := by omega
    have h1 : (j < i + 1 ∨ (i + 1) + f ≤ j) := by omega
    calc (chanLoop L m (f + 1) i ptr sat).svid[j]?
        = (satWrite L m i ptr sat).svid[j]? := ih (i + 1) _ _ j h1
      _ = sat.svid[j]? := by
          simp only [satWrite]
          exact List.getElem?_set_ne hij

theorem chanLoop_visited (L : SbfLayout) (m : Mem) :
    ∀ fuel i sat j, i ≤ j → j < i + fuel → j < sat.svid.length →
      (chanLoop L m fuel i (specSatPtr L m i) sat).svid[j]? =
        some (L.sat_svid m (specSatPtr L m j)) := by
  intro fuel
  induction fuel with
  | zero => intro i sat j _ h _; omega
  | succ f ih =>
    intro i sat j hij hjf hjl
    by_cases hj : j = i
    · subst hj
      have hstep : (chanLoop L m (f + 1) j (specSatPtr L m j) sat).svid[j]? =
          (satWrite L m j (specSatPtr L m j) sat).svid[j]? :=
        chanLoop_untouched L m f (j + 1) _ _ j (by omega)
      rw [hstep]
      simp only [satWrite]
      exact List.getElem?_set_self hjl
    · have h1 : (chanLoop L m (f + 1) i (specSatPtr L m i) sat).svid[j]? =
          (chanLoop L m f (i + 1) (specSatPtr L m (i + 1)) (satWrite L m i (specSatPtr L m i) sat)).svid[j]? := rfl
      rw [h1]
      exact ih (i + 1) _ j (by omega) (by omega)
        (by simpa only [satWrite, List.length_set] using hjl)

/-- Claim C4 (amended): a dispatched satellite channel-status frame visits
exactly `min (reported count, capacity)` satellite sub-records, reading each
satellite's fields at the cursor positions the spec describes (start of the
satinfo region, then advancing by first sub-block size plus secondary-count
times secondary-size past each record) and leaving every slot at or beyond
that bound untouched — but the satellite count written to the output is the
reported count itself (as an 8-bit store), not clamped to the capacity. -/
theorem chan_status_traversal (L : SbfLayout) (now : Nat) (s : SbfDriver)
    (hcrc : s.crc = crc16 (memBytes s.buf s.rx_payload_length))
    (hid : L.msg_id s.buf = SBF_ID_ChannelStatus) :
    (payloadRxDone L now s).1.sat.count = L.chan_n s.buf % 256 ∧
    (∀ i, i < min (L.chan_n s.buf % 256) s.sat.cap → i < s.sat.svid.length →
      (payloadRxDone L now s).1.sat.svid[i]? =
        some (L.sat_svid s.buf (specSatPtr L s.buf i))) ∧
    (∀ i, min (L.chan_n s.buf % 256) s.sat.cap ≤ i →
      (payloadRxDone L now s).1.sat.svid[i]? = s.sat.svid[i]?) := by
  have hpd : payloadRxDone L now s = chanUpdate L now s := by
    unfold payloadRxDone
    rw [if_neg (by simp [hcrc]), if_neg (by rw [hid]; decide),
      if_neg (by rw [hid]; decide), if_neg (by rw [hid]; decide), if_pos hid]
  have hsat : (chanUpdate L now s).1.sat =
      chanLoop L s.buf (min (L.chan_n s.buf % 256) s.sat.cap) 0 L.chan_satinfo_offset
        { s.sat with timestamp := now, count := L.chan_n s.buf % 256 } := by
    unfold chanUpdate
    rw [rxDoneFinish_sat]
  rw [hpd, hsat]
  refine ⟨?_, ?_, ?_⟩
  · exact (chanLoop_fields L s.buf _ _ _ _).1
  · intro i hi hil
    have h0 : L.chan_satinfo_offset = specSatPtr L s.buf 0 := rfl
    rw [h0]
    exact chanLoop_visited L s.buf _ 0 _ i (Nat.zero_le i) (by omega) hil
  · intro i hi
    exact chanLoop_untouched L s.buf _ 0 _ _ i (Or.inr (by omega))

/-- Witness for the amended C4 theorem: on a concrete frame reporting 2
satellites into a capacity-5 record, satellite 1 is read at the spec cursor
position `8 + 3 + 1*2 = 13`. -/
theorem chan_status_traversal_witness :
    (payloadRxDone LchanW 0 chanWDriver).1.sat.svid[1]? =
      some (LchanW.sat_svid chanWDriver.buf (specSatPtr LchanW chanWDriver.buf 1)) :=
  (chan_status_traversal LchanW 0 chanWDriver (by decide) (by decide)).2.1 1
    (by decide) (by decide)

/-- Claim C4 counterexample: a frame reporting 2 satellites dispatched into
a capacity-1 output record writes count 2, not `min 2 1 = 1` as the claim
states. -/
theorem chan_status_count_unclamped :
    (payloadRxDone LchanCex 0 chanCexDriver).1.sat.count = 2 ∧
    min (LchanCex.chan_n chanCexDriver.buf % 256) chanCexDriver.sat.cap = 1 := by
  decide

theorem configureFrom_ret (env : AckEnv) (nCfg fixedBaud : Nat) :
    ∀ rates i b,
      ((configureFrom env nCfg fixedBaud i b rates).ret = -1 ↔
        ∀ j, j < rates.length → ¬(env.baudAck (i + j) = true ∧ env.dynAck (i + j) = true)) ∧
      ((configureFrom env nCfg fixedBaud i b rates).ret = -1 ∨
        (configureFrom env nCfg fixedBaud i b rates).ret = 0) ∧
      ((configureFrom env nCfg fixedBaud i b rates).configured = true ↔
        (configureFrom env nCfg fixedBaud i b rates).ret = 0) := by
  intro rates
  induction rates with
  | nil =>
    intro i b
    refine ⟨by simp [configureFrom], Or.inl rfl, by simp [configureFrom]⟩
  | cons r rest ih =>
    intro i b
    by_cases hb : env.baudAck i = false
    · have hgoal : configureFrom env nCfg fixedBaud i b (r :: rest) =
        configureFrom env nCfg fixedBaud (i + 1) r rest := by
        simp [configureFrom, hb]
      rw [hgoal]
      obtain ⟨ih1, ih2, ih3⟩ := ih (i + 1) r
      refine ⟨?_, ih2, ih3⟩
      rw [ih1]
      simp only [List.length_cons]
      constructor
      · intro h j hj
        rcases Nat.eq_zero_or_pos j with rfl | hpos
        · intro ⟨h1, _⟩
          rw [Nat.add_zero] at h1
          rw [h1] at hb
          exact Bool.true_eq_false.mp hb
        · have := h (j - 1) (by omega)
          rwa [show i + 1 + (j - 1) = i + j by omega] at this
      · intro h j hj
        have := h (j + 1) (by omega)
        rwa [show i + (j + 1) = i + 1 + j by omega] at this
    · have hb' : env.baudAck i = true := by
        revert hb; cases env.baudAck i <;> simp
      by_cases hd : env.dynAck i = false
      · have hgoal : configureFrom env nCfg fixedBaud i b (r :: rest) =
          configureFrom env nCfg fixedBaud (i + 1)
            (if fixedBaud ≠ r then fixedBaud else r) rest := by
          simp [configureFrom, hb', hd]
        rw [hgoal]
        obtain ⟨ih1, ih2, ih3⟩ := ih (i + 1) (if fixedBaud ≠ r then fixedBaud else r)
        refine ⟨?_, ih2, ih3⟩
        rw [ih1]
        simp only [List.length_cons]
        constructor
        · intro h j hj
          rcases Nat.eq_zero_or_pos j with rfl | hpos
          · intro ⟨_, h2⟩
            rw [Nat.add_zero] at h2
            rw [h2] at hd
            exact Bool.true_eq_false.mp hd
          · have := h (j - 1) (by omega)
            rwa [show i + 1 + (j - 1) = i + j by omega] at this
        · intro h j hj
          have := h (j + 1) (by omega)
          rwa [show i + (j + 1) = i + 1 + j by omega] at this
      · have hd' : env.dynAck i = true := by
          revert hd; cases env.dynAck i <;> simp
        have hgoal : configureFrom env nCfg fixedBaud i b (r :: rest) =
          ⟨0, if fixedBaud ≠ r then fixedBaud else r, true,
            linesSentFrom (env.lineAck i) 0 nCfg⟩ := by
          simp [configureFrom, hb', hd]
        rw [hgoal]
        refine ⟨?_, Or.inr rfl, by simp⟩
        constructor
        · intro h
          simp at h
        · intro h
          have h0 := h 0 (by simp)
          rw [Nat.add_zero] at h0
          exact absurd ⟨hb', hd'⟩ h0

theorem linesSentFrom_stops (la : Nat → Bool) :
    ∀ n j0 j, j < n → (∀ k, k < j → la (j0 + k) = true) → la (j0 + j) = false →
      linesSentFrom la j0 n = j + 1 := by
  intro n
  induction n with
  | zero => intro j0 j hj _ _; omega
  | succ n ih =>
    intro j0 j hj hall hfail
    by_cases h0 : la j0 = true
    · have hj0 : j ≠ 0 := by
        intro e
        subst e
        rw [Nat.add_zero] at hfail
        rw [h0] at hfail
        exact Bool.true_eq_false.mp hfail
      obtain ⟨j', rfl⟩ : ∃ j', j = j' + 1 := ⟨j - 1, by omega⟩
      have hstep := ih (j0 + 1) j' (by omega)
        (fun k hk => by
          have := hall (k + 1) (by omega)
          rwa [show j0 + (k + 1) = j0 + 1 + k by omega] at this)
        (by rwa [show j0 + 1 + j' = j0 + (j' + 1) by omega])
      simp only [linesSentFrom, h0, if_true]
      omega
    · have hz : la j0 = false := by
        revert h0; cases la j0 <;> simp
      have hj0 : j = 0 := by
        by_contra hne
        have := hall 0 (by omega)
        rw [Nat.add_zero] at this
        rw [this] at hz
        exact Bool.true_eq_false.mp hz
      subst hj0
      simp [linesSentFrom, hz]

/-- Claim C3 (amended): an unacknowledged set-baudrate or set-dynamics
command advances to the next baud candidate, and `configure` fails (-1,
receiver not marked configured) exactly when every one of the six candidates
fails at one of those two steps; but a failed line of the static batch does
NOT fail the candidate: the batch is aborted at the first unacknowledged
line (fourth conjunct) and the candidate loop then exits with success, the
receiver marked configured. -/
theorem configure_result_characterization (env : AckEnv) (nCfg fixedBaud baud0 : Nat) :
    ((configure env nCfg fixedBaud baud0).ret = -1 ↔
      ∀ j, j < 6 → ¬(env.baudAck j = true ∧ env.dynAck j = true)) ∧
    ((configure env nCfg fixedBaud baud0).ret = -1 ∨
      (configure env nCfg fixedBaud baud0).ret = 0) ∧
    ((configure env nCfg fixedBaud baud0).configured = true ↔
      (configure env nCfg fixedBaud baud0).ret = 0) ∧
    (∀ la : Nat → Bool, ∀ j, j < nCfg → (∀ k, k < j → la k = true) → la j = false →
      linesSentFrom la 0 nCfg = j + 1) := by
  obtain ⟨h1, h2, h3⟩ := configureFrom_ret env nCfg fixedBaud sbfBaudrates 0 baud0
  refine ⟨?_, h2, h3, ?_⟩
  · rw [show configure env nCfg fixedBaud baud0 =
      configureFrom env nCfg fixedBaud 0 baud0 sbfBaudrates from rfl, h1]
    simp [sbfBaudrates]
  · intro la j hj hall hfail
    exact linesSentFrom_stops la nCfg 0 j hj
      (fun k hk => by simpa using hall k hk) (by simpa using hfail)

/-- Witness for the amended C3 theorem: with a 2-line batch whose first line
is unacknowledged, exactly one line is sent. -/
theorem configure_result_characterization_witness :
    linesSentFrom (fun _ => false) 0 2 = 0 + 1 :=
  (configure_result_characterization envBatchFail 2 115200 0).2.2.2
    (fun _ => false) 0 (by omega) (fun k hk => absurd hk (by omega)) rfl

/-- Claim C3 counterexample: candidate 0 acknowledges the baudrate and
dynamics commands, the first batch line is then unacknowledged, and no other
candidate acknowledges anything.  The claim says this candidate is treated
as failed and — every other candidate failing too — `configure` must report
overall failure; the code instead aborts the batch after one of its two
lines, exits the candidate loop, marks the receiver configured and returns
success with the fixed internal baud. -/
theorem configure_batch_abort_still_succeeds :
    configure envBatchFail 2 115200 0 = ⟨0, 115200, true, 1⟩ ∧
    envBatchFail.lineAck 0 0 = false := by
  decide

theorem getLastD_irrel (l : List Nat) (h : l ≠ []) (d d' : Nat) :
    l.getLastD d = l.getLastD d' := by
  cases l with
  | nil => exact absurd rfl h
  | cons a as => rfl

theorem configureFrom_fail_baud (env : AckEnv) (nCfg fixedBaud : Nat) :
    ∀ rates i b, rates ≠ [] →
      (configureFrom env nCfg fixedBaud i b rates).ret = -1 →
      ((configureFrom env nCfg fixedBaud i b rates).baudrate = rates.getLastD 0 ∨
        (configureFrom env nCfg fixedBaud i b rates).baudrate = fixedBaud) := by
  intro rates
  induction rates with
  | nil => intro i b h; exact absurd rfl h
  | cons r rest ih =>
    intro i b _ hret
    by_cases hb : env.baudAck i = false
    · have hgoal : configureFrom env nCfg fixedBaud i b (r :: rest) =
        configureFrom env nCfg fixedBaud (i + 1) r rest := by
        simp [configureFrom, hb]
      rw [hgoal] at hret ⊢
      cases rest with
      | nil =>
        left
        simp [configureFrom]
      | cons r2 rest2 =>
        have := ih (i + 1) r (by simp) hret
        rwa [show (r :: r2 :: rest2).getLastD 0 = (r2 :: rest2).getLastD 0 from
          getLastD_irrel (r2 :: rest2) (by simp) r 0]
    · have hb' : env.baudAck i = true := by
        revert hb; cases env.baudAck i <;> simp
      by_cases hd : env.dynAck i = false
      · have hgoal : configureFrom env nCfg fixedBaud i b (r :: rest) =
          configureFrom env nCfg fixedBaud (i + 1)
            (if fixedBaud ≠ r then fixedBaud else r) rest := by
          simp [configureFrom, hb', hd]
        rw [hgoal] at hret ⊢
        cases rest with
        | nil =>
          by_cases hfr : fixedBaud ≠ r
          · right
            simp [configureFrom, hfr]
          · left
            have hfr' : fixedBaud = r := by
              revert hfr; by_cases h : fixedBaud = r <;> simp [h]
            simp [configureFrom, hfr']
        | cons r2 rest2 =>
          have := ih (i + 1) (if fixedBaud ≠ r then fixedBaud else r) (by simp) hret
          rwa [show (r :: r2 :: rest2).getLastD 0 = (r2 :: rest2).getLastD 0 from
            getLastD_irrel (r2 :: rest2) (by simp) r 0]
      · have hgoal : configureFrom env nCfg fixedBaud i b (r :: rest) =
          ⟨0, if fixedBaud ≠ r then fixedBaud else r, true,
            linesSentFrom (env.lineAck i) 0 nCfg⟩ := by
          simp [configureFrom, hb', hd]
        rw [hgoal] at hret
        simp at hret

/-- Claim C10 (amended): `configure` overwrites the caller's baudrate
reference on every candidate attempt — its outcome is entirely independent
of the incoming value — and when it fails (-1) the reference holds the last
value assigned: the last candidate, 230400, or the receiver's fixed internal
baud when the last candidate's baudrate command was acknowledged before its
dynamics command failed.  On success the reference may hold the fixed
internal operating baud rather than the acknowledged candidate (here
candidate 9600 is acknowledged yet 115200 is left in the reference). -/
theorem configure_baudrate_writethrough (env : AckEnv) (nCfg fixedBaud b0 b1 : Nat) :
    configure env nCfg fixedBaud b0 = configure env nCfg fixedBaud b1 ∧
    ((configure env nCfg fixedBaud b0).ret = -1 →
      ((configure env nCfg fixedBaud b0).baudrate = 230400 ∨
        (configure env nCfg fixedBaud b0).baudrate = fixedBaud)) ∧
    (configure envAllAck 0 115200 9600).ret = 0 ∧
    (configure envAllAck 0 115200 9600).baudrate = 115200 := by
  refine ⟨rfl, ?_, by decide, by decide⟩
  intro h
  have := configureFrom_fail_baud env nCfg fixedBaud sbfBaudrates 0 b0 (by decide) h
  simpa [sbfBaudrates, List.getLastD] using this

/-- Witness for the amended C10 theorem, at the run where only the last
candidate's baudrate command is acknowledged. -/
theorem configure_baudrate_writethrough_witness :
    (configure envLastBaudOnly 0 115200 9600).baudrate = 230400 ∨
    (configure envLastBaudOnly 0 115200 9600).baudrate = 115200 :=
  (configure_baudrate_writethrough envLastBaudOnly 0 115200 9600 9600).2.1 (by decide)

/-- Claim C10 counterexample: when every candidate fails but the last
candidate's baudrate command was acknowledged (its dynamics command was
not), `configure` returns -1 with the caller's baudrate left at the fixed
internal baud 115200 — not at the last candidate tried, 230400, as the claim
states. -/
theorem configure_fail_baudrate_not_last_candidate :
    (configure envLastBaudOnly 0 115200 9600).ret = -1 ∧
    (configure envLastBaudOnly 0 115200 9600).baudrate = 115200 ∧
    (115200 : Nat) ≠ 230400 := by
  decide

theorem cstrlen_no_nul : ∀ l : List Nat, (∀ b ∈ l, b ≠ 0) → cstrlen l = l.length := by
  intro l
  induction l with
  | nil => intro _; rfl
  | cons a as ih =>
    intro h
    have ha : (a != 0) = true := by
      have := h a (by simp)
      simp [this]
    simp only [cstrlen, List.takeWhile_cons, ha, if_true, List.length_cons]
    have := ih (fun b hb => h b (by simp [hb]))
    simp only [cstrlen] at this
    omega

theorem strncmp_pattern : ∀ p : List Nat, (∀ c ∈ p, c ≠ 0) →
    ∀ b : List Nat, (strncmpIsZero b p p.length = true ↔ b.take p.length = p) := by
  intro p
  induction p with
  | nil =>
    intro _ b
    simp [strncmpIsZero]
  | cons c cs ih =>
    intro hp b
    have hc : c ≠ 0 := hp c (by simp)
    cases b with
    | nil =>
      simp only [List.length_cons, strncmpIsZero, List.headD_nil, List.headD_cons,
        List.take_nil]
      constructor
      · intro h
        rw [if_pos (Ne.symm hc)] at h
        exact absurd h (by simp)
      · intro h
        exact absurd h.symm (by simp)
    | cons d ds =>
      by_cases hdc : d = c
      · subst hdc
        have hne : ¬(d ≠ d) := by simp
        simp only [List.length_cons, strncmpIsZero, List.headD_cons, if_neg hne,
          if_neg hc, List.tail_cons, List.take_succ_cons, List.cons.injEq, true_and]
        exact ih (fun x hx => hp x (by simp [hx])) ds
      · simp only [List.length_cons, strncmpIsZero, List.headD_cons, if_pos hdc,
          List.take_succ_cons]
        constructor
        · intro h
          exact absurd h (by simp)
        · intro h
          exact absurd (List.cons.injEq .. ▸ h).1 hdc

theorem strcmp_chars : ∀ msg : List Nat, (∀ c ∈ msg, c ≠ 0) →
    ∀ b : List Nat, (strcmpIsZero b msg = true ↔
      (b.take msg.length = msg ∧ b.getD msg.length 0 = 0)) := by
  intro msg
  induction msg with
  | nil =>
    intro _ b
    cases b with
    | nil => simp [strcmpIsZero, List.getD]
    | cons d ds =>
      simp only [strcmpIsZero, List.headD_nil, List.length_nil, List.take_zero,
        List.getD, List.getElem?_cons_zero, Option.getD_some, true_and]
      by_cases hd : d = 0
      · subst hd; simp
      · rw [if_pos hd]
        simp [hd]
  | cons m ms ih =>
    intro hm b
    have hm0 : m ≠ 0 := hm m (by simp)
    cases b with
    | nil =>
      simp only [strcmpIsZero, List.headD_cons, List.length_cons, List.take_nil]
      constructor
      · intro h
        have : (m == 0) = true := h
        exact absurd (by simpa using this) hm0
      · intro ⟨h, _⟩
        exact absurd h.symm (by simp)
    | cons d ds =>
      by_cases hdm : d = m
      · subst hdm
        have hne : ¬(d ≠ d) := by simp
        have hd0 : d ≠ 0 := hm d (by simp)
        simp only [strcmpIsZero, List.headD_cons, if_neg hne, if_neg hd0,
          List.tail_cons, List.length_cons, List.take_succ_cons, List.cons.injEq,
          true_and, List.getD_cons_succ]
        exact ih (fun x hx => hm x (by simp [hx])) ds
      · simp only [strcmpIsZero, List.headD_cons, if_pos hdm, List.length_cons,
          List.take_succ_cons]
        constructor
        · intro h
          exact absurd h (by simp)
        · intro ⟨h, _⟩
          exact absurd (List.cons.injEq .. ▸ h).1 hdm

/-- Claim C9: the send-and-await-acknowledgment operation succeeds exactly
when the whole command was written (`writeRet` equals the command length),
the reply is long enough, begins with the fixed 4-byte marker `"$R: "`, and
is followed by an exact byte-for-byte echo of the command terminated there;
any shorter reply, prefix mismatch, echo mismatch or read failure yields
false.  The command is a C string, hence NUL-free. -/
theorem sendMessageAndWaitForAck_marker_echo (msg buf : List Nat) (w r : Int)
    (hm : ∀ c ∈ msg, c ≠ 0) :
    sendMessageAndWaitForAck msg w r buf = true ↔
      (w = (msg.length : Int) ∧ (msg.length : Int) + 4 ≤ r ∧
       buf.take 4 = ackMarker ∧ (buf.drop 4).take msg.length = msg ∧
       (buf.drop 4).getD msg.length 0 = 0) := by
  have h4 : strncmpIsZero buf ackMarker 4 = true ↔ buf.take 4 = ackMarker :=
    strncmp_pattern ackMarker (by decide) buf
  have h5 := strcmp_chars msg hm (buf.drop 4)
  unfold sendMessageAndWaitForAck
  rw [cstrlen_no_nul msg hm]
  split_ifs with h1 h2 h3
  · simp only [Bool.false_eq_true, false_iff]
    intro ⟨hw, _⟩
    exact h1 hw
  · simp only [Bool.false_eq_true, false_iff]
    intro ⟨_, hr, _⟩
    omega
  · simp only [Bool.false_eq_true, false_iff]
    intro ⟨hw, hr, hmk, hecho, hterm⟩
    rcases h3 with h3 | h3 | h3
    · omega
    · rw [← Bool.not_eq_true, h4] at h3
      exact h3 hmk
    · rw [← Bool.not_eq_true, h5] at h3
      exact h3 ⟨hecho, hterm⟩
  · simp only [true_iff]
    push_neg at h1 h3
    obtain ⟨hr4, hmk, hecho⟩ := h3
    refine ⟨h1, hr4, h4.mp (by
      revert hmk; cases strncmpIsZero buf ackMarker 4 <;> simp), ?_, ?_⟩
    · exact (h5.mp (by revert hecho; cases strcmpIsZero (buf.drop 4) msg <;> simp)).1
    · exact (h5.mp (by revert hecho; cases strcmpIsZero (buf.drop 4) msg <;> simp)).2

/-- Witness: command `[65, 10]` fully written (2 bytes) and answered with
`"$R: "` followed by its exact echo is acknowledged. -/
theorem sendMessageAndWaitForAck_marker_echo_witness :
    sendMessageAndWaitForAck [65, 10] 2 6 [36, 82, 58, 32, 65, 10] = true :=
  (sendMessageAndWaitForAck_marker_echo [65, 10] [36, 82, 58, 32, 65, 10] 2 6
    (by decide)).mpr (by refine ⟨rfl, by decide, rfl, rfl, rfl⟩)

theorem intOr_nonneg (a b : Int) : 0 ≤ intOr a b := Int.natCast_nonneg _

theorem parseAll_handled_nonneg (L : SbfLayout) (now : Nat) :
    ∀ bs : List Nat, ∀ s h, 0 ≤ h → 0 ≤ (parseAll L now s h bs).2 := by
  intro bs
  induction bs with
  | nil => exact fun s h hh => hh
  | cons b bs ih =>
    intro s h _
    exact ih (parseChar L now s b).1 (intOr h (parseChar L now s b).2) (intOr_nonneg _ _)

theorem receiveLoop_ready_clears (L : SbfLayout) (ts tmo : Nat) :
    ∀ evs : List ReadEvent, ∀ s h r s1, 0 ≤ h →
      receiveLoop L ts tmo s h evs = some (r, s1) → 0 ≤ r →
      s1.got_pos = false ∧ s1.got_dop = false := by
  intro evs
  induction evs with
  | nil =>
    intro s h r s1 _ heq _
    exact absurd heq (by simp [receiveLoop])
  | cons e es ih =>
    intro s h r s1 hh heq hr
    unfold receiveLoop at heq
    by_cases hneg : e.ret < 0
    · rw [if_pos hneg] at heq
      obtain ⟨h1, h2⟩ := Prod.mk.injEq .. ▸ Option.some.inj heq
      omega
    · rw [if_neg hneg] at heq
      by_cases hz : e.ret = 0
      · rw [if_pos hz] at heq
        by_cases hready :
            (if s.configured then s.got_pos && s.got_dop else h != 0) = true
        · rw [if_pos hready] at heq
          obtain ⟨h1, h2⟩ := Prod.mk.injEq .. ▸ Option.some.inj heq
          rw [← h2]
          exact ⟨rfl, rfl⟩
        · rw [if_neg hready] at heq
          by_cases htime : ts + tmo * 1000 < e.now
          · rw [if_pos htime] at heq
            obtain ⟨h1, h2⟩ := Prod.mk.injEq .. ▸ Option.some.inj heq
            omega
          · rw [if_neg htime] at heq
            exact ih s h r s1 hh heq hr
      · rw [if_neg hz] at heq
        by_cases htime : ts + tmo * 1000 < e.now
        · rw [if_pos htime] at heq
          obtain ⟨h1, h2⟩ := Prod.mk.injEq .. ▸ Option.some.inj heq
          omega
        · rw [if_neg htime] at heq
          exact ih _ _ r s1 (parseAll_handled_nonneg L e.now e.bytes s h hh) heq hr

/-- Claim C5 (amended): `receive` clears the position-observed and
DOP-observed flags exactly at a ready (non-negative) return — they are NOT
reset at the start of a call, a timed-out or failed return leaves them as the
dispatched frames set them, and the `_msg_status` mask is never reset at all,
so a later call's readiness decision can depend on frames dispatched during
an earlier call. -/
theorem receive_ready_return_clears_flags (L : SbfLayout) (ts tmo : Nat)
    (s : SbfDriver) (evs : List ReadEvent) (r : Int) (s1 : SbfDriver)
    (h : receive L ts tmo s evs = some (r, s1)) (hr : 0 ≤ r) :
    s1.got_pos = false ∧ s1.got_dop = false :=
  receiveLoop_ready_clears L ts tmo evs s 0 r s1 (by omega) h hr

/-- Witness for the amended C5 theorem, at the concrete second call below. -/
theorem receive_ready_return_clears_flags_witness :
    secondCallState.got_pos = false ∧ secondCallState.got_dop = false :=
  receive_ready_return_clears_flags Lwire 0 50 afterTimeoutState [evB, evC] 1
    secondCallState (by decide) (by decide)

/-- Claim C5 counterexample: a first configured call receives a valid
position frame and times out (returns -1); the position-observed flag — and
the message mask — survive into the next call, which then receives only a
DOP frame and returns successfully.  So the flags are not reset at the start
of a call following a timed-out return, and the second call's readiness
decision depended on the frame dispatched during the first call. -/
theorem receive_cycle_state_persists :
    (receive Lwire 0 50 cfgDriver [evA]).map Prod.fst = some (-1) ∧
    afterTimeoutState.got_pos = true ∧
    afterTimeoutState.msg_status = 1 ∧
    (receive Lwire 0 50 afterTimeoutState [evB, evC]).map Prod.fst = some 1 := by
  decide

theorem feedList_append (L : SbfLayout) (now : Nat) :
    ∀ l1 l2 : List Nat, ∀ s, feedList L now s (l1 ++ l2) =
      feedList L now (feedList L now s l1) l2 := by
  intro l1
  induction l1 with
  | nil => intro l2 s; rfl
  | cons b bs ih => intro l2 s; simpa only [List.cons_append, feedList] using ih l2 _

theorem feedList_single (L : SbfLayout) (now : Nat) (s : SbfDriver) (b : Nat) :
    feedList L now s [b] = (parseChar L now s b).1 := rfl

theorem payloadRxAdd_incomplete (s : SbfDriver) (b : Nat)
    (hlt : (s.rx_payload_index + 1) % 65536 < s.rx_payload_length) :
    payloadRxAdd s b =
      ({ s with buf := (s.rx_payload_index, b) :: s.buf,
                rx_payload_index := (s.rx_payload_index + 1) % 65536 }, 0) := by
  unfold payloadRxAdd
  rw [if_neg (Nat.not_le.mpr hlt)]

theorem parseChar_payload_step (L : SbfLayout) (now : Nat) (s : SbfDriver) (b : Nat)
    (hst : s.decode_state = .PAYLOAD)
    (hlt : (s.rx_payload_index + 1) % 65536 < s.rx_payload_length) :
    parseChar L now s b =
      ({ s with buf := (s.rx_payload_index, b % 256) :: s.buf,
                rx_payload_index := (s.rx_payload_index + 1) % 65536 }, 0) := by
  have hadd := payloadRxAdd_incomplete s (b % 256) hlt
  simp only [parseChar, hst, hadd]
  norm_num

theorem payloadRxDone_buf (L : SbfLayout) (now : Nat) (s : SbfDriver) :
    (payloadRxDone L now s).1.buf = s.buf := by
  unfold payloadRxDone
  split
  · rfl
  split
  · unfold pvtUpdate
    rw [rxDoneFinish_buf]
  split
  · unfold velCovUpdate
    rw [rxDoneFinish_buf]
  split
  · unfold dopUpdate
    rw [rxDoneFinish_buf]
  split
  · unfold chanUpdate
    rw [rxDoneFinish_buf]
  · rw [rxDoneFinish_buf]

theorem payloadRxAdd_complete (s : SbfDriver) (b : Nat)
    (hge : s.rx_payload_length ≤ (s.rx_payload_index + 1) % 65536) :
    payloadRxAdd s b =
      ({ s with buf := (s.rx_payload_index, b) :: s.buf,
                rx_payload_index := (s.rx_payload_index + 1) % 65536 }, 1) := by
  unfold payloadRxAdd
  rw [if_pos hge]

theorem parseChar_payload_write_mem (L : SbfLayout) (now : Nat) (s : SbfDriver)
    (b : Nat) (hst : s.decode_state = .PAYLOAD) :
    (s.rx_payload_index, b % 256) ∈ (parseChar L now s b).1.buf := by
  by_cases hc : s.rx_payload_length ≤ (s.rx_payload_index + 1) % 65536
  · have hadd := payloadRxAdd_complete s (b % 256) hc
    simp only [parseChar, hst, hadd]
    norm_num
    rw [show ∀ x : SbfDriver, (decodeInit x).buf = x.buf from fun _ => rfl,
      payloadRxDone_buf]
    exact List.mem_cons_self _ _
  · have hadd := payloadRxAdd_incomplete s (b % 256) (Nat.not_le.mp hc)
    simp only [parseChar, hst, hadd]
    norm_num

theorem advState_proj : ∀ j, j ≤ 65534 →
    (feedList L0 0 advState (List.replicate j 0)).decode_state = .PAYLOAD ∧
    (feedList L0 0 advState (List.replicate j 0)).rx_payload_index = j ∧
    (feedList L0 0 advState (List.replicate j 0)).rx_payload_length = 65535 := by
  intro j
  induction j with
  | zero => intro _; exact ⟨by decide, by decide, by decide⟩
  | succ j ih =>
    intro hj
    obtain ⟨h1, h2, h3⟩ := ih (by omega)
    rw [List.replicate_succ', feedList_append]
    have hmod : ((feedList L0 0 advState (List.replicate j 0)).rx_payload_index + 1)
        % 65536 = j + 1 := by
      rw [h2]
      exact Nat.mod_eq_of_lt (by omega)
    have hstep := parseChar_payload_step L0 0
      (feedList L0 0 advState (List.replicate j 0)) 0 h1 (by rw [hmod, h3]; omega)
    rw [feedList_single, hstep]
    exact ⟨h1, hmod, h3⟩

/-- Claim C1: the decoder has no capacity check at all: on the concrete
adversarial input — a frame header declaring body length 65531, so an
adjusted length of 65535 — followed by payload bytes, the byte-at-a-time run
performs a store at buffer index 65534 (the pair `(65534, 0)` enters the
write log).  The index is bounded only by the remote-supplied 16-bit length,
never compared against the payload buffer's capacity (`sizeof(sbf_buf_t)`, a
fixed small struct), so for any capacity below 65535 a byte is stored past
the buffer instead of the frame being failed and discarded as the claim
requires. -/
theorem parseChar_stores_past_any_capacity :
    (65534, 0) ∈ (feedList L0 0 initDriver (advHdr ++ List.replicate 65535 0)).buf := by
  have hadv : feedList L0 0 initDriver advHdr = advState := by decide
  have key : (65534, 0) ∈ (feedList L0 0 advState (List.replicate 65535 0)).buf := by
    rw [show (65535 : Nat) = 65534 + 1 by norm_num, List.replicate_succ', feedList_append,
      feedList_single]
    obtain ⟨h1, h2, _⟩ := advState_proj 65534 (Nat.le_refl 65534)
    have hmem := parseChar_payload_write_mem L0 0
      (feedList L0 0 advState (List.replicate 65534 0)) 0 h1
    rw [h2, Nat.zero_mod] at hmem
    exact hmem
  rw [feedList_append, hadv]
  exact key
